import Mathlib

set_option maxRecDepth 100000

/-!
Verification of the resilient response-parsing pipeline of `api_client.py`
(class `APIClient`): a shallow embedding of `_parse_response`,
`_create_fallback_response`, `_extract_prediction_content`,
`_extract_chart_json_from_prediction`, `_try_parse_json_candidate`,
`_extract_analysis_text_from_prediction`, `_detect_chart_type_from_prompt`
and `_default_chart_config`, together with a model of Python's `json.loads`
restricted to what those routines feed it.

Python strings are modelled as `List Char` (sequences of code points), Python
dicts arising from JSON as ordered association lists with last-wins insertion
(`setKey`), and Python exceptions inside `_parse_response` as an explicit
`Except` with a constructor per exception class that the handlers distinguish.
All definitions are structurally (or fuel-) recursive so that they evaluate
by `rfl`/`decide` on concrete inputs.  Debug printing (`self.config.debug`)
has no effect on the returned values and is omitted.
-/

/-- Python `str` as a sequence of code points. -/
abbrev Str := List Char

/-- Coercion from a Lean string literal to the `Str` model. -/
def lit (s : String) : Str := s.data

/-- The `\x7b` character (opening curly brace). -/
def lbrace : Char := Char.ofNat 123

/-- The `\x7d` character (closing curly brace). -/
def rbrace : Char := Char.ofNat 125

/-- The backtick character used by markdown fences. -/
def btick : Char := Char.ofNat 96

/-- Python's `needle in haystack` substring test on strings. -/
def pyIn (needle : Str) : Str → Bool
  | [] => needle.isPrefixOf []
  | c :: t => needle.isPrefixOf (c :: t) || pyIn needle t

/-- Characters for which Python's `str.isspace()` (and hence `str.strip()`
and the regex class `\s` on `str` patterns) holds. -/
def pyIsSpace (c : Char) : Bool :=
  (9 ≤ c.toNat && c.toNat ≤ 13) || c = ' ' ||
  (0x1c ≤ c.toNat && c.toNat ≤ 0x1f) || c.toNat = 0x85 || c.toNat = 0xa0 ||
  c.toNat = 0x1680 || (0x2000 ≤ c.toNat && c.toNat ≤ 0x200a) ||
  c.toNat = 0x2028 || c.toNat = 0x2029 || c.toNat = 0x202f ||
  c.toNat = 0x205f || c.toNat = 0x3000

/-- Python `str.strip()`: remove leading and trailing whitespace. -/
def pyStrip (l : Str) : Str :=
  ((l.dropWhile pyIsSpace).reverse.dropWhile pyIsSpace).reverse

/-- Python `str.lower()` (ASCII letters; other code points are untouched,
which is all the pipeline's keyword tables need). -/
def pyLower (l : Str) : Str := l.map Char.toLower

/-- Fuelled worker for `pyReplace`; the fuel dominates the input length, and
each step consumes at least one character. -/
def pyReplaceF : Nat → Str → Str → Str → Str
  | 0, l, _, _ => l
  | _ + 1, [], _, _ => []
  | fuel + 1, c :: t, pat, rep =>
    if pat.isPrefixOf (c :: t) then
      rep ++ pyReplaceF fuel ((c :: t).drop pat.length) pat rep
    else
      c :: pyReplaceF fuel t pat rep

/-- Python `str.replace(pat, rep)` for a non-empty `pat`: left-to-right,
non-overlapping, scanning resumes after each replacement. -/
def pyReplace (l pat rep : Str) : Str :=
  if pat = [] then l else pyReplaceF l.length l pat rep

/-- A JSON value as produced by Python's `json.loads`: numbers keep their
written form `(neg, intPart, fracDigits, exponent)` so that both ints and
floats embed without floating-point arithmetic; `nan`/`inf` cover the
non-standard literals `NaN`/`Infinity`/`-Infinity` that `json.loads`
accepts by default. Objects are ordered key/value lists with unique keys
(duplicates collapse last-wins at parse time, as for a Python dict). -/
inductive Json where
  | null
  | bool (b : Bool)
  | num (neg : Bool) (ip : Nat) (frac : List Nat) (exp : Int)
  | str (s : Str)
  | nan
  | inf (neg : Bool)
  | arr (elems : List Json)
  | obj (fields : List (String × Json))

/-- Dictionary lookup; the field lists built here have unique keys, so
first match is the Python dict lookup. -/
def lookupKey (fields : List (String × Json)) (k : String) : Option Json :=
  match fields with
  | [] => none
  | (k', v) :: t => if k' = k then some v else lookupKey t k

/-- Python `key in dict`. -/
def hasKey (fields : List (String × Json)) (k : String) : Bool :=
  (lookupKey fields k).isSome

/-- Python `dict[key] = value`: updates an existing key in place (keeping its
position) or appends a new one. -/
def setKey (fields : List (String × Json)) (k : String) (v : Json) :
    List (String × Json) :=
  match fields with
  | [] => [(k, v)]
  | (k', v') :: t => if k' = k then (k, v) :: t else (k', v') :: setKey t k v

/-- Python truthiness of a JSON-shaped value (`if x:`). -/
def pyTruthy : Json → Bool
  | .null => false
  | .bool b => b
  | .num _ ip frac _ => !(ip == 0 && frac.all (· == 0))
  | .str s => !s.isEmpty
  | .nan => true
  | .inf _ => true
  | .arr l => !l.isEmpty
  | .obj f => !f.isEmpty

/-- Whitespace that Python's `json` module itself skips between tokens. -/
def jsonWs (c : Char) : Bool :=
  c = ' ' || c = '\t' || c = '\n' || c = '\r'

/-- Drop JSON inter-token whitespace. -/
def jsonSkipWs (l : Str) : Str := l.dropWhile jsonWs

/-- ASCII decimal digit test. -/
def isDigitCh (c : Char) : Bool := 48 ≤ c.toNat && c.toNat ≤ 57

/-- Split off a maximal run of decimal digits, as digit values. -/
def takeDigits : Str → (List Nat × Str)
  | [] => ([], [])
  | c :: t =>
    if isDigitCh c then
      let (ds, r) := takeDigits t
      ((c.toNat - 48) :: ds, r)
    else ([], c :: t)

/-- Digit list to the natural number it denotes. -/
def digitsToNat (ds : List Nat) : Nat := ds.foldl (fun a d => a * 10 + d) 0

/-- Hexadecimal digit value, by code-point ranges. -/
def hexDigitVal (c : Char) : Option Nat :=
  let n := c.toNat
  if 48 ≤ n && n ≤ 57 then some (n - 48)
  else if 97 ≤ n && n ≤ 102 then some (n - 87)
  else if 65 ≤ n && n ≤ 70 then some (n - 55)
  else none

/-- Value of four hex digits, if all four are hex. -/
def hex4Val (a b c d : Char) : Option Nat :=
  match hexDigitVal a, hexDigitVal b, hexDigitVal c, hexDigitVal d with
  | some va, some vb, some vc, some vd =>
    some (va * 4096 + vb * 256 + vc * 16 + vd)
  | _, _, _, _ => none

/-- Single-character JSON string escapes (the decoder's BACKSLASH table). -/
def jsonEscape (c : Char) : Option Char :=
  if c = '\"' then some '\"'
  else if c = '\\' then some '\\'
  else if c = '/' then some '/'
  else if c = 'b' then some (Char.ofNat 8)
  else if c = 'f' then some (Char.ofNat 12)
  else if c = 'n' then some '\n'
  else if c = 'r' then some '\r'
  else if c = 't' then some '\t'
  else none

/-- Attempt to read a `\uXXXX` low-surrogate escape at the head of `r`. -/
def splitLowSurrogate (r : Str) : Option (Nat × Str) :=
  match r with
  | '\\' :: 'u' :: a2 :: b2 :: c2 :: d2 :: r2 =>
    match hex4Val a2 b2 c2 d2 with
    | some uni2 =>
      if 0xdc00 ≤ uni2 && uni2 ≤ 0xdfff then some (uni2, r2) else none
    | none => none
  | _ => none

/-- Fuelled body of a JSON string literal, after the opening quote
(`py_scanstring` with `strict=True`: raw control characters are rejected,
`\uXXXX` escapes decode with surrogate-pair combination; a lone surrogate,
which Python would keep verbatim but a Lean `Char` cannot hold, degrades to
`Char.ofNat`'s default — no input in this development exercises that
corner).  Each step consumes at least one character, so fuel above the
input length never runs out. -/
def scanJStringF : Nat → Str → Str → Option (Str × Str)
  | 0, _, _ => none
  | _ + 1, [], _ => none
  | _ + 1, '\"' :: r, acc => some (acc.reverse, r)
  | fuel + 1, '\\' :: 'u' :: a :: b :: c :: d :: r, acc =>
    match hex4Val a b c d with
    | none => none
    | some uni =>
      if 0xd800 ≤ uni && uni ≤ 0xdbff then
        match splitLowSurrogate r with
        | some (uni2, r2) =>
          scanJStringF fuel r2
            (Char.ofNat (0x10000 + (uni - 0xd800) * 0x400 + (uni2 - 0xdc00)) :: acc)
        | none => scanJStringF fuel r (Char.ofNat uni :: acc)
      else scanJStringF fuel r (Char.ofNat uni :: acc)
  | fuel + 1, '\\' :: e :: r, acc =>
    match jsonEscape e with
    | some ch => scanJStringF fuel r (ch :: acc)
    | none => none
  | fuel + 1, c :: r, acc =>
    if c.toNat < 0x20 then none else scanJStringF fuel r (c :: acc)

/-- String-literal body scan with adequate fuel. -/
def scanJString (r : Str) (acc : Str) : Option (Str × Str) :=
  scanJStringF (r.length + 1) r acc

/-- Optional exponent: sign then digits; if no digit follows, nothing is
consumed (`orig` is the input before the `e`/`E`). -/
def scanJExponent (r orig : Str) : Int × Str :=
  let sgn : Int := match r with
    | '-' :: _ => -1
    | _ => 1
  let r1 : Str := match r with
    | '+' :: r' => r'
    | '-' :: r' => r'
    | _ => r
  match takeDigits r1 with
  | ([], _) => (0, orig)
  | (ds, r2) => (sgn * (digitsToNat ds : Int), r2)

/-- Fraction and exponent of a number literal, after the integer part. -/
def scanJNumberTail (neg : Bool) (ip : Nat) (l2 : Str) : Json × Str :=
  let (frac, l3) := match l2 with
    | '.' :: r =>
      match takeDigits r with
      | ([], _) => ([], l2)
      | (ds, r') => (ds, r')
    | _ => ([], l2)
  let (exp, l4) := match l3 with
    | 'e' :: r => scanJExponent r l3
    | 'E' :: r => scanJExponent r l3
    | _ => ((0 : Int), l3)
  (Json.num neg ip frac exp, l4)

/-- Python's `NUMBER_RE` match, integer part onward:
`(?:0|[1-9]\d*)(\.\d+)?([eE][-+]?\d+)?`; a leading `0` is a complete
integer part, and a `.`/`e` not followed by a digit is left unconsumed. -/
def scanJNumberInt (neg : Bool) (l1 : Str) : Option (Json × Str) :=
  match l1 with
  | '0' :: r => some (scanJNumberTail neg 0 r)
  | c :: _ =>
    if isDigitCh c then
      let (ds, r) := takeDigits l1
      some (scanJNumberTail neg (digitsToNat ds) r)
    else none
  | [] => none

/-- Number dispatch: an optional leading minus, then the integer part. -/
def scanJNumber (l : Str) : Option (Json × Str) :=
  match l with
  | '-' :: r => scanJNumberInt true r
  | _ => scanJNumberInt false l

/-- Parsing mode for the single fuelled JSON scanner: a value, the elements
of a non-empty array, or the members of a non-empty object. -/
inductive JMode where
  | value
  | elems
  | members

/-- One fuelled scanner covering `scan_once`, `JSONArray` and `JSONObject` of
Python's decoder.  `value` mode expects a value to start immediately (callers
skip whitespace first, as in the C-free reference decoder); `elems`/`members`
modes are entered after `[`/`{` plus whitespace with a non-close character
ahead, and carry the elements/fields accumulated so far. -/
def parseJRun : Nat → JMode → List Json → List (String × Json) → Str →
    Option (Json × Str)
  | 0, _, _, _, _ => none
  | _ + 1, JMode.value, _, _, '\"' :: r =>
    match scanJString r [] with
    | some (s, r') => some (Json.str s, r')
    | none => none
  | fuel + 1, JMode.value, _, _, c :: r =>
    if c = lbrace then
      match jsonSkipWs r with
      | c' :: r' =>
        if c' = rbrace then some (Json.obj [], r')
        else parseJRun fuel JMode.members [] [] (c' :: r')
      | [] => none
    else if c = '[' then
      match jsonSkipWs r with
      | ']' :: r' => some (Json.arr [], r')
      | r1 => parseJRun fuel JMode.elems [] [] r1
    else
      match c :: r with
      | 'n' :: 'u' :: 'l' :: 'l' :: r' => some (Json.null, r')
      | 't' :: 'r' :: 'u' :: 'e' :: r' => some (Json.bool true, r')
      | 'f' :: 'a' :: 'l' :: 's' :: 'e' :: r' => some (Json.bool false, r')
      | 'N' :: 'a' :: 'N' :: r' => some (Json.nan, r')
      | 'I' :: 'n' :: 'f' :: 'i' :: 'n' :: 'i' :: 't' :: 'y' :: r' =>
        some (Json.inf false, r')
      | '-' :: 'I' :: 'n' :: 'f' :: 'i' :: 'n' :: 'i' :: 't' :: 'y' :: r' =>
        some (Json.inf true, r')
      | l' => scanJNumber l'
  | _ + 1, JMode.value, _, _, [] => none
  | fuel + 1, JMode.elems, accA, _, l =>
    match parseJRun fuel JMode.value [] [] l with
    | none => none
    | some (v, r) =>
      match jsonSkipWs r with
      | ']' :: r' => some (Json.arr (accA ++ [v]), r')
      | ',' :: r' => parseJRun fuel JMode.elems (accA ++ [v]) [] (jsonSkipWs r')
      | _ => none
  | fuel + 1, JMode.members, _, accF, '\"' :: r =>
    match scanJString r [] with
    | none => none
    | some (k, r1) =>
      match jsonSkipWs r1 with
      | ':' :: r2 =>
        match parseJRun fuel JMode.value [] [] (jsonSkipWs r2) with
        | none => none
        | some (v, r3) =>
          match jsonSkipWs r3 with
          | c :: r4 =>
            if c = rbrace then
              some (Json.obj (setKey accF (String.mk k) v), r4)
            else if c = ',' then
              parseJRun fuel JMode.members [] (setKey accF (String.mk k) v)
                (jsonSkipWs r4)
            else none
          | [] => none
      | _ => none
  | _ + 1, JMode.members, _, _, _ => none

/-- Python `json.loads`: skip leading whitespace, scan one value, and demand
that only whitespace remains (else "Extra data"); `none` models every
`json.JSONDecodeError`. -/
def jsonLoads (l : Str) : Option Json :=
  match parseJRun (4 * l.length + 16) JMode.value [] [] (jsonSkipWs l) with
  | some (v, rest) => if (jsonSkipWs rest).isEmpty then some v else none
  | none => none


/-- The characters replaced by plain spaces at lines 312–323 (and again at
lines 451–454) of `api_client.py`: the non-breaking space and the Unicode
space-separator block U+2000–U+200A, in the source's order. -/
def badWsChars : Str :=
  ['\xA0', '\u2000', '\u2001', '\u2002', '\u2003', '\u2004', '\u2005',
   '\u2006', '\u2007', '\u2008', '\u2009', '\u200A']

/-- Python slice `[3:-1]` applied when the text starts with `\"\"\"` and ends
with `\"` (the asymmetric wrapper strip of lines 305–306 / 444–445). -/
def stripTripleQuote (l : Str) : Str :=
  if (lit "\"\"\"").isPrefixOf l && (lit "\"").isSuffixOf l then
    (l.drop 3).dropLast
  else l

/-- Lines 309 / 448: `.replace('\\n', '\n').replace('\\\"', '\"')`. -/
def unescapeSeqs (l : Str) : Str :=
  pyReplace (pyReplace l (lit "\\n") (lit "\n")) (lit "\\\"") (lit "\"")

/-- Lines 312–323 / 451–454: successive single-character replacements of the
non-breaking space and U+2000–U+200A by plain spaces. -/
def wsReplaceAll (l : Str) : Str :=
  badWsChars.foldl (fun acc c => pyReplace acc [c] [' ']) l

/-- The shared clean-up block of `_extract_chart_json_from_prediction` and
`_extract_analysis_text_from_prediction` (the spec's TextNormalizer):
wrapper strip, unescaping, whitespace substitution, in that order. -/
def normalizeText (l : Str) : Str :=
  wsReplaceAll (unescapeSeqs (stripTripleQuote l))

/-- Case-insensitive literal-prefix test (the regexes are compiled with
`re.IGNORECASE`; the patterns used here are lowercase). -/
def icHasPrefix (pat : Str) (l : Str) : Bool :=
  pat.isPrefixOf (pyLower (l.take pat.length))

/-- Match of `kw` + `\s*\n\s*\x7b` at the head of `l` (the anchored patterns
`json\s*\n\s*\x7b` and the fenced variant).  With greedy backtracking the
whitespace consumed is exactly the maximal `\s` run after `kw`: the run must
contain a newline and the first character after it must be the brace, which
the pattern's final character then matches.  Returns the brace's offset. -/
def anchorBraceAt (kw : Str) (l : Str) : Option Nat :=
  if icHasPrefix kw l then
    let rest := l.drop kw.length
    let w := (rest.takeWhile pyIsSpace).length
    if (rest.take w).contains '\n' then
      match rest.drop w with
      | c :: _ => if c = lbrace then some (kw.length + w) else none
      | [] => none
    else none
  else none

/-- Leftmost match of the anchored pattern (`re.search` semantics): returns
`(match start, brace position)`. -/
def searchAnchor (kw : Str) : Str → Nat → Option (Nat × Nat)
  | [], _ => none
  | c :: t, i =>
    match anchorBraceAt kw (c :: t) with
    | some off => some (i, i + off)
    | none => searchAnchor kw t (i + 1)

/-- The fenced keyword of the second anchor pattern. -/
def fencedJsonKw : Str := [btick, btick, btick] ++ lit "json"

/-- Python slice `l[a:b]`. -/
def sliceStr (l : Str) (a b : Nat) : Str := (l.drop a).take (b - a)

/-- The depth-count loop of `_try_parse_json_candidate` (lines 392–402):
position one past the brace that first returns the running count to zero;
the count also decrements on unmatched closers, exactly as in the source. -/
def findBalancedEnd : Str → Nat → Int → Option Nat
  | [], _, _ => none
  | c :: t, i, cnt =>
    if c = lbrace then findBalancedEnd t (i + 1) (cnt + 1)
    else if c = rbrace then
      if cnt - 1 == 0 then some (i + 1) else findBalancedEnd t (i + 1) (cnt - 1)
    else findBalancedEnd t (i + 1) cnt

/-- `_try_parse_json_candidate` (lines 384–436): strip, slice the first
depth-balanced span (or the whole string when the count never returns to
zero), `json.loads` it, and accept only a mapping holding `title`,
`chart_type` and `data`; every failure is `None`, never an exception. -/
def tryParseJsonCandidate (cand : Str) : Option (List (String × Json)) :=
  let cand := pyStrip cand
  let jsonStr := match findBalancedEnd cand 0 0 with
    | some e => cand.take e
    | none => cand
  match jsonLoads jsonStr with
  | some (Json.obj fields) =>
    if hasKey fields "title" && hasKey fields "chart_type" && hasKey fields "data" then
      some fields
    else none
  | _ => none

/-- Candidate from a brace position: `cleaned_content[json_start:].strip()`
fed to `_try_parse_json_candidate`. -/
def candidateFrom (cleaned : Str) (bracePos : Nat) : Option (List (String × Json)) :=
  tryParseJsonCandidate (pyStrip (cleaned.drop bracePos))

/-- The fallback brace-depth scan of `_extract_chart_json_from_prediction`
(lines 358–375): the span from the first brace seen to the closer that
returns the count to zero is a candidate; on parse failure the start resets
and scanning continues.  The count decrements on every closer, so it can go
negative and stay there, exactly as in the source. -/
def braceScanAux (full : Str) : Str → Nat → Int → Option Nat → Option (List (String × Json))
  | [], _, _, _ => none
  | c :: t, i, cnt, js =>
    if c = lbrace then
      braceScanAux full t (i + 1) (cnt + 1) (some (js.getD i))
    else if c = rbrace then
      if cnt - 1 == 0 && js.isSome then
        match tryParseJsonCandidate (sliceStr full (js.getD 0) (i + 1)) with
        | some fields => some fields
        | none => braceScanAux full t (i + 1) (cnt - 1) none
      else braceScanAux full t (i + 1) (cnt - 1) js
    else braceScanAux full t (i + 1) cnt js

/-- `_extract_chart_json_from_prediction` (lines 296–382), the spec's
JsonObjectScanner: normalize, then try the three anchored start patterns in
order (each contributes at most its leftmost match), then the balanced-brace
fallback scan. -/
def extractChartJson (content : Str) : Option (List (String × Json)) :=
  let cleaned := normalizeText content
  match (match searchAnchor (lit "json") cleaned 0 with
         | some (_, b) => candidateFrom cleaned b
         | none => none) with
  | some f => some f
  | none =>
    match (match searchAnchor fencedJsonKw cleaned 0 with
           | some (_, b) => candidateFrom cleaned b
           | none => none) with
    | some f => some f
    | none =>
      match (match cleaned.findIdx? (· = lbrace) with
             | some i => candidateFrom cleaned i
             | none => none) with
      | some f => some f
      | none => braceScanAux cleaned cleaned 0 0 none

/-- Match of the analysis-side third pattern `\x7b(?=\s*"title")` at the head
of `l`: a brace whose lookahead, after the maximal whitespace run, reads the
quoted `title` key (case-insensitively). -/
def titleAnchorAt (l : Str) : Bool :=
  match l with
  | c :: rest =>
    c = lbrace &&
      (let w := (rest.takeWhile pyIsSpace).length
       icHasPrefix (lit "\"title\"") (rest.drop w))
  | [] => false

/-- Leftmost match position of the `\x7b(?=\s*"title")` pattern. -/
def searchTitleAnchor : Str → Nat → Option Nat
  | [], _ => none
  | c :: t, i =>
    if titleAnchorAt (c :: t) then some i else searchTitleAnchor t (i + 1)

/-- Lines 457–469: the analysis extractor's JSON start position — the first
pattern in the list that matches anywhere wins (its leftmost match start),
defaulting to the end of the text. -/
def analysisJsonStart (cleaned : Str) : Nat :=
  match searchAnchor (lit "json") cleaned 0 with
  | some (s, _) => s
  | none =>
    match searchAnchor fencedJsonKw cleaned 0 with
    | some (s, _) => s
    | none =>
      match searchTitleAnchor cleaned 0 with
      | some s => s
      | none => cleaned.length

/-- Split off the first newline-terminated line, if any. -/
def splitFirstLine (l : Str) : Option (Str × Str) :=
  match l.findIdx? (· = '\n') with
  | some i => some (l.take i, l.drop (i + 1))
  | none => none

/-- Fuelled worker for `removeFenceLines`. -/
def removeFenceLinesF : Nat → Str → Str
  | 0, l => l
  | fuel + 1, l =>
    match splitFirstLine l with
    | none => l
    | some (line, rest) =>
      (if ([btick, btick, btick]).isPrefixOf line then [] else line ++ ['\n']) ++
        removeFenceLinesF fuel rest

/-- Line 477: `re.sub(r'^\x60\x60\x60.*?\n', '', ..., flags=re.MULTILINE)` —
every newline-terminated line beginning with a markdown fence is removed
(lazy `.*?` stops at the first newline; `^` holds after each removed line's
newline in the original string). -/
def removeFenceLines (l : Str) : Str := removeFenceLinesF (l.length + 1) l

/-- Line 478: `re.sub(r'\n\x60\x60\x60$', '', ...)` — without `re.MULTILINE`,
`$` matches only at the end or just before a final newline, so at most one
trailing fence is removed. -/
def removeTrailingFence (l : Str) : Str :=
  let fence := '\n' :: [btick, btick, btick]
  if fence.isSuffixOf l then l.take (l.length - 4)
  else if (fence ++ ['\n']).isSuffixOf l then l.take (l.length - 5) ++ ['\n']
  else l

/-- Try `f` on `n, n-1, …, 0` and return the first success — the order in
which a greedy `\s*` with backtracking offers lengths. -/
def findDownNat : Nat → (Nat → Option Nat) → Option Nat
  | 0, f => f 0
  | n + 1, f =>
    match f (n + 1) with
    | some x => some x
    | none => findDownNat n f

/-- Match length of `\n\s*\n\s*\n` at the head of `l` under the regex
engine's greedy-with-backtracking order: the first `\s*` takes the longest
feasible run before its following `\n`, then the second does the same. -/
def collapseMatchAt (l : Str) : Option Nat :=
  match l with
  | '\n' :: rest =>
    let w := (rest.takeWhile pyIsSpace).length
    findDownNat w (fun a =>
      if rest[a]? = some '\n' then
        let rest' := rest.drop (a + 1)
        let w2 := (rest'.takeWhile pyIsSpace).length
        findDownNat w2 (fun b =>
          if rest'[b]? = some '\n' then some (a + b + 3) else none)
      else none)
  | _ => none

/-- Fuelled worker for `collapseNewlines`: leftmost match, replace by two
newlines, resume after the match (`re.sub` semantics). -/
def collapseNewlinesF : Nat → Str → Str
  | 0, l => l
  | _ + 1, [] => []
  | fuel + 1, c :: t =>
    match collapseMatchAt (c :: t) with
    | some len => '\n' :: '\n' :: collapseNewlinesF fuel ((c :: t).drop len)
    | none => c :: collapseNewlinesF fuel t

/-- Line 481: `re.sub(r'\n\s*\n\s*\n', '\n\n', ...)` — runs of three-plus
newlines (with interleaved whitespace) collapse to a blank line. -/
def collapseNewlines (l : Str) : Str := collapseNewlinesF (l.length + 1) l

/-- The placeholder indicators of lines 485–491, verbatim. -/
def placeholderIndicators : List Str :=
  [lit "…huge string……...", lit "huge string", lit "...",
   lit "placeholder", lit "sample text"]

/-- Line 493: any indicator occurs in the lowercased analysis text. -/
def isPlaceholderText (a : Str) : Bool :=
  placeholderIndicators.any (fun ind => pyIn ind (pyLower a))

/-- The canned multi-paragraph message substituted at lines 497–506. -/
def cannedAnalysisMessage : Str :=
  lit ("**AI Analysis Summary:**\n\nThis chart was generated based on your request. " ++
    "The AI model analyzed the data requirements and created an appropriate " ++
    "visualization with the following considerations:\n\n" ++
    "• **Data Structure**: The chart includes properly formatted labels and datasets\n" ++
    "• **Visualization Type**: Selected based on the nature of your data and request\n" ++
    "• **Configuration**: Optimized chart settings for clarity and readability\n" ++
    "• **Interactivity**: Generated as an interactive HTML chart for better user experience\n\n" ++
    "The model processed your request and generated realistic sample data that " ++
    "demonstrates the patterns and relationships you requested.")

/-- The pre-JSON analysis text before post-processing: everything before the
detected JSON start, stripped (line 472). -/
def analysisCandidate (content : Str) : Str :=
  let cleaned := normalizeText content
  pyStrip (cleaned.take (analysisJsonStart cleaned))

/-- Lines 477–482: fence stripping, newline collapsing and a final strip. -/
def analysisPostProcess (a0 : Str) : Str :=
  pyStrip (collapseNewlines (removeTrailingFence (removeFenceLines a0)))

/-- `_extract_analysis_text_from_prediction` (lines 438–518), the spec's
AnalysisExtractor: prose before the JSON start, post-processed; short
placeholder stubs are swapped for the canned message; only text longer than
ten characters is surfaced. -/
def extractAnalysisText (content : Str) : Option Str :=
  let a0 := analysisCandidate content
  if a0.isEmpty then none
  else
    let a1 := analysisPostProcess a0
    let a2 :=
      if isPlaceholderText a1 && decide (a1.length < 200) then cannedAnalysisMessage
      else a1
    if 10 < a2.length then some a2 else none

/-- The prompt-keyword rules of `_detect_chart_type_from_prompt`
(lines 525–543), verbatim from the source's condition order. -/
def detectChartTypeFromPromptOnly (p : Str) : Str :=
  let pl := pyLower p
  if pyIn (lit "pie chart") pl || pyIn (lit "pie") pl then lit "pie"
  else if [lit "line chart", lit "line graph", lit "trend", lit "over time",
      lit "time series"].any (fun w => pyIn w pl) then lit "line"
  else if [lit "scatter plot", lit "correlation", lit "relationship", lit "vs",
      lit "versus"].any (fun w => pyIn w pl) then lit "scatter"
  else if [lit "bar chart", lit "bar graph", lit "comparison",
      lit "compare"].any (fun w => pyIn w pl) then lit "bar"
  else if [lit "share", lit "distribution", lit "percentage",
      lit "proportion"].any (fun w => pyIn w pl) then lit "pie"
  else if [lit "growth", lit "change", lit "monthly", lit "yearly",
      lit "daily"].any (fun w => pyIn w pl) then lit "line"
  else lit "bar"

/-- `_detect_chart_type_from_prompt` (lines 520–543), the spec's
ChartTypeInferer: `if explicit_chart_type:` is Python truthiness, so an
empty-string override falls through to the prompt rules. -/
def detectChartType (p : Str) (explicit : Option Str) : Str :=
  match explicit with
  | some e => if e.isEmpty then detectChartTypeFromPromptOnly p else e
  | none => detectChartTypeFromPromptOnly p

/-- `_default_chart_config` (lines 546–555). -/
def defaultChartConfig : Json :=
  .obj [("x_axis_title", .str (lit "Categories")),
        ("y_axis_title", .str (lit "Values")),
        ("color_scheme", .str (lit "viridis")),
        ("show_legend", .bool true),
        ("responsive", .bool true)]

/-- The exception classes that `_parse_response`'s handlers distinguish:
`json.JSONDecodeError`, `ValueError`, and every other `Exception` raised in
the `try` body.  (`ValueError` is listed separately for the required-field
check at lines 186–188; the handlers treat it like any other `Exception`.) -/
inductive PyExc where
  | jsonDecode (msg : Str)
  | valueError (msg : Str)
  | generic (msg : Str)

/-- Message carried by an exception value. -/
def pyExcMsg : PyExc → Str
  | .jsonDecode m => m
  | .valueError m => m
  | .generic m => m

/-- `_extract_prediction_content` (lines 259–294) for a string transport
payload (the decoded-dict envelope branch is the upstream collaborator
concern the spec scopes out): probe the text with `json.loads` and return a
`prediction` field when the result is a mapping carrying one, else the text
itself.  No failure is possible on this branch — every internal error is
swallowed. -/
def extractPredictionContent (response : Str) : Json :=
  match jsonLoads response with
  | some (Json.obj fields) =>
    match lookupKey fields "prediction" with
    | some v => v
    | none => Json.str response
  | _ => Json.str response

/-- Line 179 applied to the prediction value: `_extract_chart_json_from_prediction`
on a non-string (a `prediction` field holding a number, mapping, …) hits an
`AttributeError` inside that helper's blanket `except` and yields `None`. -/
def predChartJson : Json → Option (List (String × Json))
  | .str s => extractChartJson s
  | _ => none

/-- Line 203 / 239 applied to the prediction value, with the same non-string
behaviour as `predChartJson`. -/
def predAnalysis : Json → Option Str
  | .str s => extractAnalysisText s
  | _ => none

/-- Lines 184–199 of `_parse_response`, the spec's ChartSpecValidator:
required-field check (raising `ValueError`), defaulting of `description` and
`chart_config`, and chart-type inference when the present value is falsy. -/
def validateChartData (cd : List (String × Json)) (p : Str) (ct : Option Str) :
    Except PyExc (List (String × Json)) :=
  if !hasKey cd "title" then
    .error (.valueError (lit "Missing required field: title"))
  else if !hasKey cd "chart_type" then
    .error (.valueError (lit "Missing required field: chart_type"))
  else if !hasKey cd "data" then
    .error (.valueError (lit "Missing required field: data"))
  else
    let cd1 := if hasKey cd "description" then cd
      else setKey cd "description" (.str (lit "Generated data visualization"))
    let cd2 := if hasKey cd1 "chart_config" then cd1
      else setKey cd1 "chart_config" defaultChartConfig
    let cd3 := if pyTruthy ((lookupKey cd2 "chart_type").getD Json.null) then cd2
      else setKey cd2 "chart_type" (.str (detectChartType p ct))
    .ok cd3

/-- The placeholder `data` object of the fallback specification (line 247). -/
def placeholderData : Json :=
  .obj [("labels", .arr [.str (lit "Placeholder")]),
        ("datasets", .arr [.obj [("name", .str (lit "Values")),
                                 ("values", .arr [Json.num false 1 [] 0])]])]

/-- `_create_fallback_response` (lines 233–257): `None` unless the prediction
content is truthy and analysis text was extracted; otherwise the fixed
fallback specification carrying the failure reason. -/
def createFallbackResponse (pred : Json) (p : Str) (ct : Option Str)
    (reason : Str) : Option Json :=
  if !pyTruthy pred then none
  else
    match predAnalysis pred with
    | none => none
    | some a =>
      some (Json.obj
        [("title", .str (lit "AI Analysis Available")),
         ("description", .str (reason ++ lit " but analysis was extracted")),
         ("chart_type", .str (detectChartType p ct)),
         ("data", placeholderData),
         ("chart_config", defaultChartConfig),
         ("prediction_analysis", .str a),
         ("parsing_error", .bool true),
         ("error_reason", .str reason)])

/-- Message of the exception raised at line 176. -/
def noPredictionMsg : Str := lit "No prediction content found in API response"

/-- Message of the exception raised at line 182. -/
def noChartJsonMsg : Str := lit "No valid chart JSON found in prediction content"

/-- The `try` body of `_parse_response` (lines 171–207): extract the
prediction content, scan it for chart JSON, validate, and attach any
extracted analysis text.  Raised exceptions become `Except.error` values for
the handlers below. -/
def parseResponseBody (response p : Str) (ct : Option Str) : Except PyExc Json :=
  let pred := extractPredictionContent response
  if !pyTruthy pred then .error (.generic noPredictionMsg)
  else
    match predChartJson pred with
    | none => .error (.generic noChartJsonMsg)
    | some cd =>
      match validateChartData cd p ct with
      | .error e => .error e
      | .ok cd' =>
        match predAnalysis pred with
        | some a => .ok (Json.obj (setKey cd' "prediction_analysis" (Json.str a)))
        | none => .ok (Json.obj cd')

/-- The fallback tag used by the `json.JSONDecodeError` handler (line 216). -/
def reasonJsonFail : Str := lit "JSON parsing failed"

/-- The fallback tag used by the blanket `Exception` handler (line 227). -/
def reasonChartFail : Str := lit "Chart parsing failed"

/-- Prefix of the error raised by the blanket handler (line 231). -/
def failedParseMsg (m : Str) : Str := lit "Failed to parse API response: " ++ m

/-- `_parse_response` (lines 165–231), the spec's ResponseParsingPipeline
entry point for a string payload: the `try` body, the `json.JSONDecodeError`
handler (fallback tagged "JSON parsing failed", else an error carrying a
200-character response preview), and the blanket `Exception` handler
(fallback tagged "Chart parsing failed", else a wrapped error message).  In
both handlers `prediction_content` holds `extractPredictionContent response`,
which is assigned before any raise can occur. -/
def parseResponse (response p : Str) (ct : Option Str) : Except Str Json :=
  match parseResponseBody response p ct with
  | .ok j => .ok j
  | .error (PyExc.jsonDecode m) =>
    (match createFallbackResponse (extractPredictionContent response) p ct
        reasonJsonFail with
     | some fb => .ok fb
     | none =>
       .error (lit "Failed to parse chart JSON from prediction: " ++ m ++
         lit "\n\nAPI Response: " ++ response.take 200 ++ lit "..."))
  | .error e =>
    (match createFallbackResponse (extractPredictionContent response) p ct
        reasonChartFail with
     | some fb => .ok fb
     | none => .error (failedParseMsg (pyExcMsg e)))

/-- Characterization of the whitespace substitution pass as a character map;
used to reason about convergence of `normalizeText`. -/
def wsSubst (c : Char) : Char := if c ∈ badWsChars then ' ' else c

/-- Observer: the `chart_type` field of a successfully returned
specification (`none` when the pipeline failed or returned a non-object). -/
def specChartType : Except Str Json → Option Json
  | .ok (Json.obj fields) => lookupKey fields "chart_type"
  | _ => none

/-- The decorative object of the spec's brace-balance test. -/
def c4DecorText : String := "\x7b\"note\":\"ignore\"\x7d"

/-- The real chart object of the spec's brace-balance test. -/
def c4ChartText : String :=
  "\x7b\"title\":\"T\",\"chart_type\":\"pie\",\"data\":\x7b\"labels\":[\"x\",\"y\"]," ++
  "\"datasets\":[\x7b\"name\":\"d\",\"values\":[1,2]\x7d]\x7d\x7d"

/-- The parsed form of `c4ChartText`. -/
def c4Expected : List (String × Json) :=
  [("title", .str (lit "T")),
   ("chart_type", .str (lit "pie")),
   ("data", .obj [("labels", .arr [.str (lit "x"), .str (lit "y")]),
                  ("datasets", .arr [.obj [("name", .str (lit "d")),
                    ("values", .arr [Json.num false 1 [] 0, Json.num false 2 [] 0])]])])]

/-- Modelled from the spec's section 4.5 wording of the ChartTypeInferer
keyword rules (the comparator for the refinement claim): lower-case the
prompt and apply ordered first-match rules — "pie"/"pie chart" to pie, the
line set to line, the scatter set to scatter, the bar set to bar, then the
secondary pie and line hints, then bar. -/
def chartTypeRulesSpec (p : Str) : Str :=
  let pl := pyLower p
  if pyIn (lit "pie chart") pl || pyIn (lit "pie") pl then lit "pie"
  else if [lit "line chart", lit "line graph", lit "trend", lit "over time",
      lit "time series"].any (fun w => pyIn w pl) then lit "line"
  else if [lit "scatter plot", lit "correlation", lit "relationship", lit "vs",
      lit "versus"].any (fun w => pyIn w pl) then lit "scatter"
  else if [lit "bar chart", lit "bar graph", lit "comparison",
      lit "compare"].any (fun w => pyIn w pl) then lit "bar"
  else if [lit "share", lit "distribution", lit "percentage",
      lit "proportion"].any (fun w => pyIn w pl) then lit "pie"
  else if [lit "growth", lit "change", lit "monthly", lit "yearly",
      lit "daily"].any (fun w => pyIn w pl) then lit "line"
  else lit "bar"

/-! ### Helper lemmas -/

theorem lookupKey_setKey_self (l : List (String × Json)) (k : String) (v : Json) :
    lookupKey (setKey l k v) k = some v := by
  induction l with
  | nil => simp [setKey, lookupKey]
  | cons hd t ih =>
    obtain ⟨k', v'⟩ := hd
    by_cases h : k' = k
    · subst h
      simp [setKey, lookupKey]
    · simp [setKey, lookupKey, h, ih]

theorem lookupKey_setKey_ne (l : List (String × Json)) (k' k : String) (v : Json)
    (h : k' ≠ k) : lookupKey (setKey l k' v) k = lookupKey l k := by
  induction l with
  | nil => simp [setKey, lookupKey, h]
  | cons hd t ih =>
    obtain ⟨k₀, v₀⟩ := hd
    by_cases h₀ : k₀ = k'
    · subst h₀
      simp [setKey, lookupKey, h]
    · simp [setKey, lookupKey, h₀, ih]

theorem pyIn_iff (n h : Str) : pyIn n h = true ↔ n <:+: h := by
  induction h with
  | nil =>
    simp [pyIn, List.isPrefixOf_iff_prefix]
  | cons c t ih =>
    simp only [pyIn, Bool.or_eq_true, List.isPrefixOf_iff_prefix, ih]
    exact List.infix_cons_iff.symm

theorem pyReplaceF_not_infix (pat rep : Str) :
    ∀ (fuel : Nat) (l : Str), ¬ pat <:+: l → pyReplaceF fuel l pat rep = l := by
  intro fuel
  induction fuel with
  | zero => intro l _; rfl
  | succ fuel ih =>
    intro l hinf
    match l with
    | [] => rfl
    | c :: t =>
      have hpre : pat.isPrefixOf (c :: t) = false := by
        rw [Bool.eq_false_iff]
        intro hp
        exact hinf ((List.isPrefixOf_iff_prefix.mp hp).isInfix)
      simp only [pyReplaceF, hpre, Bool.false_eq_true, if_false, List.cons.injEq, true_and]
      exact ih t (fun h => hinf (List.infix_cons_iff.mpr (Or.inr h)))

theorem pyReplace_not_infix (l pat rep : Str) (h : ¬ pat <:+: l) :
    pyReplace l pat rep = l := by
  by_cases hp : pat = []
  · simp [pyReplace, hp]
  · simp [pyReplace, hp, pyReplaceF_not_infix pat rep l.length l h]

theorem singleton_infix_iff (c : Char) (l : Str) : [c] <:+: l ↔ c ∈ l := by
  constructor
  · intro h
    exact h.subset (List.mem_singleton_self c)
  · intro h
    obtain ⟨s, t, rfl⟩ := List.mem_iff_append.mp h
    exact ⟨s, t, by simp⟩

theorem pyReplaceF_single (c r : Char) :
    ∀ (fuel : Nat) (l : Str), l.length ≤ fuel →
      pyReplaceF fuel l [c] [r] = l.map (fun x => if x = c then r else x) := by
  intro fuel
  induction fuel with
  | zero =>
    intro l hl
    have : l = [] := List.eq_nil_of_length_eq_zero (Nat.le_zero.mp hl)
    subst this
    rfl
  | succ fuel ih =>
    intro l hl
    match l with
    | [] => rfl
    | c' :: t =>
      have hlt : t.length ≤ fuel := by
        simpa [Nat.succ_le_succ_iff] using hl
      by_cases hc : c' = c
      · subst hc
        simp [pyReplaceF, List.isPrefixOf, ih t hlt]
      · have : (c == c') = false := by
          simp [BEq.beq]
          exact fun h => hc h.symm
        simp [pyReplaceF, List.isPrefixOf, this, hc, ih t hlt]

theorem pyReplace_single (c r : Char) (l : Str) :
    pyReplace l [c] [r] = l.map (fun x => if x = c then r else x) := by
  simp [pyReplace, pyReplaceF_single c r l.length l (le_refl _)]

theorem wsReplaceAll_eq_map (l : Str) : wsReplaceAll l = l.map wsSubst := by
  simp only [wsReplaceAll, badWsChars, List.foldl]
  rw [pyReplace_single, pyReplace_single, pyReplace_single, pyReplace_single,
    pyReplace_single, pyReplace_single, pyReplace_single, pyReplace_single,
    pyReplace_single, pyReplace_single, pyReplace_single, pyReplace_single]
  simp only [List.map_map]
  apply List.map_congr_left
  intro a _
  by_cases ha : a ∈ badWsChars
  · simp only [badWsChars, List.mem_cons, List.not_mem_nil, or_false] at ha
    rcases ha with h | h | h | h | h | h | h | h | h | h | h | h <;> subst h <;> rfl
  · have hs := ha
    simp only [badWsChars, List.mem_cons, List.not_mem_nil, or_false, not_or] at hs
    obtain ⟨h1, h2, h3, h4, h5, h6, h7, h8, h9, h10, h11, h12⟩ := hs
    simp [wsSubst, ha, h1, h2, h3, h4, h5, h6, h7, h8, h9, h10, h11, h12]

theorem badWs_not_mem_wsReplaceAll (c : Char) (hc : c ∈ badWsChars) (l : Str) :
    c ∉ wsReplaceAll l := by
  rw [wsReplaceAll_eq_map]
  intro hmem
  obtain ⟨x, _, hx⟩ := List.mem_map.mp hmem
  by_cases hxb : x ∈ badWsChars
  · simp only [wsSubst, if_pos hxb] at hx
    subst hx
    revert hc
    decide
  · simp only [wsSubst, if_neg hxb] at hx
    subst hx
    exact hxb hc

theorem wsReplaceAll_eq_self (l : Str) (h : ∀ c ∈ badWsChars, c ∉ l) :
    wsReplaceAll l = l := by
  rw [wsReplaceAll_eq_map]
  have hpt : ∀ a ∈ l, wsSubst a = id a := by
    intro a hal
    have : a ∉ badWsChars := fun hab => h a hab hal
    simp [wsSubst, this]
  exact (List.map_congr_left hpt).trans (List.map_id l)

theorem normalizeText_no_badWs (s : Str) (c : Char) (hc : c ∈ badWsChars) :
    c ∉ normalizeText s :=
  badWs_not_mem_wsReplaceAll c hc _

theorem tryParseJsonCandidate_keys (x : Str) (f : List (String × Json))
    (h : tryParseJsonCandidate x = some f) :
    (hasKey f "title" && hasKey f "chart_type" && hasKey f "data") = true := by
  simp only [tryParseJsonCandidate] at h
  split at h
  · split at h
    · obtain rfl := Option.some.inj h
      assumption
    · exact absurd h (by simp)
  · exact absurd h (by simp)

theorem candidateFrom_keys (cleaned : Str) (b : Nat) (f : List (String × Json))
    (h : candidateFrom cleaned b = some f) :
    (hasKey f "title" && hasKey f "chart_type" && hasKey f "data") = true :=
  tryParseJsonCandidate_keys _ f h

theorem braceScanAux_keys (full : Str) :
    ∀ (rest : Str) (i : Nat) (cnt : Int) (js : Option Nat) (f : List (String × Json)),
      braceScanAux full rest i cnt js = some f →
      (hasKey f "title" && hasKey f "chart_type" && hasKey f "data") = true := by
  intro rest
  induction rest with
  | nil =>
    intro i cnt js f h
    exact absurd h (by simp [braceScanAux])
  | cons c t ih =>
    intro i cnt js f h
    unfold braceScanAux at h
    split at h
    · exact ih _ _ _ _ h
    · split at h
      · split at h
        · split at h
          · obtain rfl := Option.some.inj h
            exact tryParseJsonCandidate_keys _ _ (by assumption)
          · exact ih _ _ _ _ h
        · exact ih _ _ _ _ h
      · exact ih _ _ _ _ h

theorem extractChartJson_keys (s : Str) (f : List (String × Json))
    (h : extractChartJson s = some f) :
    (hasKey f "title" && hasKey f "chart_type" && hasKey f "data") = true := by
  simp only [extractChartJson] at h
  split at h
  · next heq =>
    split at heq
    · obtain rfl := Option.some.inj h
      exact candidateFrom_keys _ _ _ heq
    · exact absurd heq (by simp)
  · split at h
    · next heq =>
      split at heq
      · obtain rfl := Option.some.inj h
        exact candidateFrom_keys _ _ _ heq
      · exact absurd heq (by simp)
    · split at h
      · next heq =>
        split at heq
        · obtain rfl := Option.some.inj h
          exact candidateFrom_keys _ _ _ heq
        · exact absurd heq (by simp)
      · exact braceScanAux_keys _ _ _ _ _ _ h

theorem validateChartData_ok_of_keys (cd : List (String × Json)) (p : Str)
    (ct : Option Str)
    (h : (hasKey cd "title" && hasKey cd "chart_type" && hasKey cd "data") = true) :
    (validateChartData cd p ct).isOk = true := by
  simp only [Bool.and_eq_true] at h
  obtain ⟨⟨h1, h2⟩, h3⟩ := h
  simp [validateChartData, h1, h2, h3, Except.isOk, Except.toBool]

theorem validateChartData_error_shape (cd : List (String × Json)) (p : Str)
    (ct : Option Str) (e : PyExc) (h : validateChartData cd p ct = .error e) :
    ∃ m, e = PyExc.valueError m := by
  simp only [validateChartData] at h
  split at h
  · exact ⟨_, (Except.error.inj h).symm⟩
  · split at h
    · exact ⟨_, (Except.error.inj h).symm⟩
    · split at h
      · exact ⟨_, (Except.error.inj h).symm⟩
      · exact absurd h (by simp)

theorem parseResponseBody_no_jsonDecode (r p : Str) (ct : Option Str) (m : Str) :
    parseResponseBody r p ct ≠ Except.error (PyExc.jsonDecode m) := by
  intro h
  simp only [parseResponseBody] at h
  split at h
  · exact PyExc.noConfusion (Except.error.inj h)
  · split at h
    · exact PyExc.noConfusion (Except.error.inj h)
    · split at h
      · next e heq =>
        obtain ⟨m', rfl⟩ := validateChartData_error_shape _ _ _ _ heq
        exact PyExc.noConfusion (Except.error.inj h)
      · split at h <;> exact Except.noConfusion h

theorem detectChartTypeFromPromptOnly_ne_nil (p : Str) :
    detectChartTypeFromPromptOnly p ≠ [] := by
  simp only [detectChartTypeFromPromptOnly]
  split_ifs <;> decide

theorem detectChartType_ne_nil (p : Str) (e : Option Str) :
    detectChartType p e ≠ [] := by
  unfold detectChartType
  match e with
  | none => exact detectChartTypeFromPromptOnly_ne_nil p
  | some x =>
    by_cases hx : x.isEmpty
    · simp [hx, detectChartTypeFromPromptOnly_ne_nil p]
    · simp only [hx, Bool.false_eq_true, if_false]
      exact fun hn => by simp [hn] at hx

theorem extractAnalysisText_length (s : Str) (a : Str)
    (h : extractAnalysisText s = some a) : 10 < a.length := by
  simp only [extractAnalysisText] at h
  split at h
  · exact absurd h (by simp)
  · split at h
    · split at h
      · obtain rfl := Option.some.inj h
        assumption
      · exact absurd h (by simp)
    · split at h
      · obtain rfl := Option.some.inj h
        assumption
      · exact absurd h (by simp)

theorem extractAnalysisText_nil : extractAnalysisText [] = none := rfl

/-! ### Claim theorems -/

/-- C4 (amended, concrete part): for the spec's brace-balance test input —
a brace-balanced decorative object lacking the required keys, prose, then a
brace-balanced object with `title`, `chart_type` and `data` — the scanner
returns the later object (which satisfies the required-keys shape), not the
first object (which lacks `title`) and not null.  The general "for every
text containing such a pair" reading fails (see the counterexample), so the
guarantee is stated for inputs whose decorative and real objects are exact
balanced spans not preceded by unmatched braces, witnessed here on the
spec's own test input. -/
theorem scanner_returns_second_object :
    extractChartJson (lit (c4DecorText ++ " ... " ++ c4ChartText)) = some c4Expected ∧
    jsonLoads (lit c4DecorText) = some (Json.obj [("note", Json.str (lit "ignore"))]) ∧
    hasKey [("note", Json.str (lit "ignore"))] "title" = false ∧
    (hasKey c4Expected "title" && hasKey c4Expected "chart_type" &&
      hasKey c4Expected "data") = true :=
  ⟨rfl, rfl, rfl, rfl⟩

/-- C4 (counterexample): the claim quantifies over every normalized text
containing a decorative balanced object followed by a valid one, but a
single stray unmatched `\x7b` before the pair defeats both the anchored
phase (the candidate from the first brace never balances) and the fallback
scan (the depth never returns to zero), so the scanner returns null rather
than the later object. -/
theorem scanner_second_object_cex :
    jsonLoads (lit c4DecorText) = some (Json.obj [("note", Json.str (lit "ignore"))]) ∧
    hasKey [("note", Json.str (lit "ignore"))] "title" = false ∧
    jsonLoads (lit c4ChartText) = some (Json.obj c4Expected) ∧
    (hasKey c4Expected "title" && hasKey c4Expected "chart_type" &&
      hasKey c4Expected "data") = true ∧
    extractChartJson (lit ("\x7b " ++ c4DecorText ++ " ... " ++ c4ChartText)) = none :=
  ⟨rfl, rfl, rfl, rfl, rfl⟩

/-- C5 (amended): `normalize` applied twice equals `normalize` applied once
provided all three substitutions have converged on the first application's
output — it is not wrapped in the triple-quote/trailing-quote pattern and
contains no literal `\n` or `\"` escape sequences.  (The whitespace pass
always converges after one application, so no whitespace hypothesis is
needed; convergence of the input's whitespace alone is not sufficient — see
the counterexample.) -/
theorem normalize_idempotent_once_converged (s : Str)
    (hwrap : ((lit "\"\"\"").isPrefixOf (normalizeText s) &&
      (lit "\"").isSuffixOf (normalizeText s)) = false)
    (hn : pyIn (lit "\\n") (normalizeText s) = false)
    (hq : pyIn (lit "\\\"") (normalizeText s) = false) :
    normalizeText (normalizeText s) = normalizeText s := by
  have hnb : ∀ c ∈ badWsChars, c ∉ normalizeText s :=
    fun c hc => normalizeText_no_badWs s c hc
  show wsReplaceAll (unescapeSeqs (stripTripleQuote (normalizeText s))) = normalizeText s
  have h1 : stripTripleQuote (normalizeText s) = normalizeText s := by
    simp [stripTripleQuote, hwrap]
  rw [h1]
  have hn' : ¬ (lit "\\n") <:+: normalizeText s := fun hin => by
    rw [(pyIn_iff _ _).mpr hin] at hn
    exact Bool.noConfusion hn
  have hq' : ¬ (lit "\\\"") <:+: normalizeText s := fun hin => by
    rw [(pyIn_iff _ _).mpr hin] at hq
    exact Bool.noConfusion hq
  have h2 : unescapeSeqs (normalizeText s) = normalizeText s := by
    simp only [unescapeSeqs, pyReplace_not_infix _ _ _ hn', pyReplace_not_infix _ _ _ hq']
  rw [h2]
  exact wsReplaceAll_eq_self _ hnb

/-- Witness for C5 (amended) at a concrete converged input. -/
theorem normalize_idempotent_once_converged_witness :
    normalizeText (normalizeText (lit "hello world")) = normalizeText (lit "hello world") :=
  normalize_idempotent_once_converged (lit "hello world") (by decide) (by decide) (by decide)

/-- C5 (counterexample): the input `\"\"\"\"\"\"a\"\"` contains no
non-breaking space and no U+2000–U+200A character (whitespace substitution
has converged), yet normalize is not idempotent on it: the first pass
strips the outer wrapper and leaves `\"\"\"a\"`, which the second pass
strips again. -/
theorem normalize_idempotence_cex :
    (∀ c ∈ badWsChars, c ∉ lit "\"\"\"\"\"\"a\"\"") ∧
    normalizeText (normalizeText (lit "\"\"\"\"\"\"a\"\"")) ≠
      normalizeText (lit "\"\"\"\"\"\"a\"\"") := by
  refine ⟨by decide, ?_⟩
  intro h
  exact absurd h (by decide)

/-- C6: whenever the extracted pre-JSON analysis text is non-empty and its
post-processed form is shorter than 200 characters and contains a stub
marker (in lowercase), the extractor returns the fixed canned message
rather than the original text. -/
theorem analysis_placeholder_substitution (s : Str)
    (h0 : analysisCandidate s ≠ [])
    (h1 : isPlaceholderText (analysisPostProcess (analysisCandidate s)) = true)
    (h2 : (analysisPostProcess (analysisCandidate s)).length < 200) :
    extractAnalysisText s = some cannedAnalysisMessage := by
  have hne : (analysisCandidate s).isEmpty = false := by
    rw [Bool.eq_false_iff]
    intro hc
    exact h0 (List.isEmpty_iff.mp hc)
  have hlen : 10 < cannedAnalysisMessage.length := by decide
  simp [extractAnalysisText, hne, h1, h2, hlen]

/-- Witness for C6 at the spec's own placeholder input. -/
theorem analysis_placeholder_substitution_witness :
    extractAnalysisText (lit "…huge string……...") = some cannedAnalysisMessage :=
  analysis_placeholder_substitution (lit "…huge string……...")
    (by decide) (by decide) (by decide)

/-- C10: chart-type keyword matching is plain substring containment on the
lowercased prompt — any prompt whose lowercased form contains `pie`
anywhere yields `pie` with no override, before every other rule. -/
theorem chartType_pie_substring (p : Str)
    (h : pyIn (lit "pie") (pyLower p) = true) :
    detectChartType p none = lit "pie" := by
  simp [detectChartType, detectChartTypeFromPromptOnly, h]

/-- Witness for C10: `pie` inside the unrelated word `occupied`. -/
theorem chartType_pie_substring_witness :
    pyIn (lit "pie") (pyLower (lit "how many rooms are occupied")) = true ∧
    detectChartType (lit "how many rooms are occupied") none = lit "pie" :=
  ⟨by decide, chartType_pie_substring (lit "how many rooms are occupied") (by decide)⟩

/-- C7 (amended): a non-empty override is returned unchanged without
validation; an empty-string override is falsy in Python and is ignored
(see the counterexample), after which — as with no override — the
lowercased prompt goes through the spec's ordered first-match keyword
rules; in particular the spec's null-chart_type test prompt infers pie. -/
theorem chartTypeInferer_rules (p : Str) (o : Str) :
    (o ≠ [] → detectChartType p (some o) = o) ∧
    (detectChartType p (some []) = chartTypeRulesSpec p) ∧
    (detectChartType p none = chartTypeRulesSpec p) ∧
    detectChartType (lit "show me a pie chart of market share") none = lit "pie" := by
  refine ⟨?_, rfl, rfl, rfl⟩
  intro ho
  have : o.isEmpty = false := by
    rw [Bool.eq_false_iff]
    intro hc
    exact ho (List.isEmpty_iff.mp hc)
  simp [detectChartType, this]

/-- Witness for C7 (amended): a non-enum override passes through untouched,
and the spec's pie-prompt test infers pie. -/
theorem chartTypeInferer_rules_witness :
    detectChartType (lit "plot something") (some (lit "donut")) = lit "donut" ∧
    detectChartType (lit "show me a pie chart of market share") none = lit "pie" :=
  ⟨(chartTypeInferer_rules (lit "plot something") (lit "donut")).1 (by decide),
   (chartTypeInferer_rules (lit "x") (lit "x")).2.2.2⟩

/-- C7 (counterexample): an empty-string override is supplied yet not
returned unchanged — Python's `if explicit_chart_type:` is a truthiness
test, so the inferer falls through to the prompt rules and returns `bar`. -/
theorem chartTypeInferer_override_cex :
    detectChartType (lit "show data") (some []) = lit "bar" ∧
    lit "bar" ≠ ([] : Str) :=
  ⟨rfl, by decide⟩

/-- C8: a valid minimal chart object lacking `description` and
`chart_config` validates to a specification whose `description` is the
fixed default string and whose `chart_config` is the fixed default object
as a whole (not a partial merge). -/
theorem validator_defaulting (cd : List (String × Json)) (p : Str) (ct : Option Str)
    (ht : hasKey cd "title" = true) (hc : hasKey cd "chart_type" = true)
    (hd : hasKey cd "data" = true) (hnd : hasKey cd "description" = false)
    (hncc : hasKey cd "chart_config" = false) :
    (match validateChartData cd p ct with
     | .ok out =>
       lookupKey out "description" = some (.str (lit "Generated data visualization")) ∧
       lookupKey out "chart_config" = some defaultChartConfig
     | .error _ => False) := by
  have e1 : ∀ (l : List (String × Json)) v,
      lookupKey (setKey l "chart_type" v) "description" = lookupKey l "description" :=
    fun l v => lookupKey_setKey_ne l _ _ v (by decide)
  have e2 : ∀ (l : List (String × Json)) v,
      lookupKey (setKey l "chart_type" v) "chart_config" = lookupKey l "chart_config" :=
    fun l v => lookupKey_setKey_ne l _ _ v (by decide)
  have e3 : ∀ (l : List (String × Json)) v,
      lookupKey (setKey l "chart_config" v) "description" = lookupKey l "description" :=
    fun l v => lookupKey_setKey_ne l _ _ v (by decide)
  have e4 : ∀ v, hasKey (setKey cd "description" v) "chart_config" =
      hasKey cd "chart_config" := by
    intro v
    simp [hasKey,
      lookupKey_setKey_ne cd "description" "chart_config" v (by decide)]
  simp only [validateChartData, ht, hc, hd, hnd, hncc, e4, Bool.not_true,
    Bool.false_eq_true, if_false, if_true]
  split <;> simp [e1, e2, e3, lookupKey_setKey_self]

/-- Witness for C8 at a concrete minimal object. -/
theorem validator_defaulting_witness :
    (match validateChartData
        [("title", Json.str (lit "T")), ("chart_type", Json.str (lit "bar")),
         ("data", Json.arr [])] (lit "") none with
     | .ok out =>
       lookupKey out "description" = some (.str (lit "Generated data visualization")) ∧
       lookupKey out "chart_config" = some defaultChartConfig
     | .error _ => False) :=
  validator_defaulting
    [("title", Json.str (lit "T")), ("chart_type", Json.str (lit "bar")),
     ("data", Json.arr [])] (lit "") none rfl rfl rfl rfl rfl

theorem chartType_stage (l : List (String × Json)) (p : Str) (ct : Option Str) :
    ∃ v, lookupKey
        (if pyTruthy ((lookupKey l "chart_type").getD Json.null) then l
         else setKey l "chart_type" (Json.str (detectChartType p ct)))
        "chart_type" = some v ∧ pyTruthy v = true := by
  by_cases hT : pyTruthy ((lookupKey l "chart_type").getD Json.null) = true
  · rw [if_pos hT]
    cases hl : lookupKey l "chart_type" with
    | none =>
      rw [hl] at hT
      exact absurd hT (by decide)
    | some v =>
      rw [hl] at hT
      exact ⟨v, rfl, hT⟩
  · rw [if_neg hT]
    refine ⟨Json.str (detectChartType p ct), lookupKey_setKey_self _ _ _, ?_⟩
    have hne := detectChartType_ne_nil p ct
    simp [pyTruthy, List.isEmpty_iff, hne]

theorem validateChartData_chartType_truthy (cd : List (String × Json)) (p : Str)
    (ct : Option Str) (out : List (String × Json))
    (h : validateChartData cd p ct = .ok out) :
    ∃ v, lookupKey out "chart_type" = some v ∧ pyTruthy v = true := by
  simp only [validateChartData] at h
  split at h
  · exact absurd h (by simp)
  · split at h
    · exact absurd h (by simp)
    · split at h
      · exact absurd h (by simp)
      · obtain rfl := Except.ok.inj h
        exact chartType_stage _ p ct

theorem parseResponseBody_ok_chartType (r p : Str) (ct : Option Str) (j : Json)
    (h : parseResponseBody r p ct = .ok j) :
    ∃ fields v, j = Json.obj fields ∧ lookupKey fields "chart_type" = some v ∧
      pyTruthy v = true := by
  simp only [parseResponseBody] at h
  split at h
  · exact absurd h (by simp)
  · split at h
    · exact absurd h (by simp)
    · split at h
      · exact absurd h (by simp)
      · next cd' heq =>
        split at h
        · next a _ =>
          obtain rfl := Except.ok.inj h
          obtain ⟨v, hv, htr⟩ := validateChartData_chartType_truthy _ _ _ _ heq
          refine ⟨_, v, rfl, ?_, htr⟩
          rw [lookupKey_setKey_ne _ _ _ _ (by decide)]
          exact hv
        · obtain rfl := Except.ok.inj h
          obtain ⟨v, hv, htr⟩ := validateChartData_chartType_truthy _ _ _ _ heq
          exact ⟨_, v, rfl, hv, htr⟩

theorem createFallbackResponse_chartType (pred : Json) (p : Str) (ct : Option Str)
    (reason : Str) (fb : Json)
    (h : createFallbackResponse pred p ct reason = some fb) :
    ∃ fields v, fb = Json.obj fields ∧ lookupKey fields "chart_type" = some v ∧
      pyTruthy v = true := by
  simp only [createFallbackResponse] at h
  split at h
  · exact absurd h (by simp)
  · split at h
    · exact absurd h (by simp)
    · obtain rfl := Option.some.inj h
      refine ⟨_, Json.str (detectChartType p ct), rfl, rfl, ?_⟩
      have hne := detectChartType_ne_nil p ct
      simp [pyTruthy, List.isEmpty_iff, hne]

/-- C1 (amended): every specification the pipeline returns carries a
present, truthy `chart_type` — the field is never left null or falsy
(when the payload's own value is falsy or absent it is replaced by the
override or an inferred enum value).  The claim's stronger reading — that
the value always lies in the four-value enum or equals the override — fails
because a truthy payload value passes through unvalidated (see the
counterexample). -/
theorem chartType_never_falsy (r p : Str) (ct : Option Str) (spec : Json)
    (h : parseResponse r p ct = .ok spec) :
    ∃ v, specChartType (Except.ok spec) = some v ∧ pyTruthy v = true := by
  simp only [parseResponse] at h
  split at h
  · next heq =>
    obtain rfl := Except.ok.inj h
    obtain ⟨fields, v, rfl, hv, htr⟩ := parseResponseBody_ok_chartType r p ct _ heq
    exact ⟨v, by simp [specChartType, hv], htr⟩
  · split at h
    · next hfb =>
      obtain rfl := Except.ok.inj h
      obtain ⟨fields, v, rfl, hv, htr⟩ := createFallbackResponse_chartType _ _ _ _ _ hfb
      exact ⟨v, by simp [specChartType, hv], htr⟩
    · exact absurd h (by simp)
  · split at h
    · next hfb =>
      obtain rfl := Except.ok.inj h
      obtain ⟨fields, v, rfl, hv, htr⟩ := createFallbackResponse_chartType _ _ _ _ _ hfb
      exact ⟨v, by simp [specChartType, hv], htr⟩
    · exact absurd h (by simp)

/-- Witness for C1 (amended) at a concrete minimal payload. -/
theorem chartType_never_falsy_witness :
    ∃ v, specChartType (Except.ok (Json.obj
      [("title", Json.str (lit "T")), ("chart_type", Json.str (lit "bar")),
       ("data", Json.arr []),
       ("description", Json.str (lit "Generated data visualization")),
       ("chart_config", defaultChartConfig)])) = some v ∧ pyTruthy v = true :=
  chartType_never_falsy
    (lit "\x7b\"title\":\"T\",\"chart_type\":\"bar\",\"data\":[]\x7d")
    (lit "") none
    (Json.obj
      [("title", Json.str (lit "T")), ("chart_type", Json.str (lit "bar")),
       ("data", Json.arr []),
       ("description", Json.str (lit "Generated data visualization")),
       ("chart_config", defaultChartConfig)])
    (by rfl)

/-- C1 (counterexample): a payload whose JSON carries the truthy value
`donut` leaves the pipeline with `chart_type` equal to `donut`, which is
none of the four enum values, and no override was supplied. -/
theorem chartType_enum_cex :
    specChartType (parseResponse
      (lit ("\x7b\"title\":\"T\",\"chart_type\":\"donut\"," ++
        "\"data\":\x7b\"labels\":[],\"datasets\":[]\x7d\x7d"))
      (lit "") none) = some (Json.str (lit "donut")) ∧
    lit "donut" ∉ [lit "bar", lit "line", lit "pie", lit "scatter"] :=
  ⟨rfl, by decide⟩

theorem predChartJson_keys (j : Json) (cd : List (String × Json))
    (h : predChartJson j = some cd) :
    (hasKey cd "title" && hasKey cd "chart_type" && hasKey cd "data") = true := by
  cases j
  case str s => exact extractChartJson_keys s cd h
  all_goals exact absurd h (by simp [predChartJson])

/-- C2 (amended): the pipeline fails in exactly two situations — the
empty-prediction error exactly when the extracted prediction content is
falsy, and the chart-parsing error exactly when prediction content is
present but neither a valid chart object nor analysis text could be
recovered; in every other case it returns a specification without raising.
The error actually raised on the reachable chart-parsing path carries the
failure reason but no truncated raw-response preview — the ≤200-character
preview of the claim lives only in the unreachable JSON-decode handler
(see the counterexample). -/
theorem parse_failure_conditions (r p : Str) (ct : Option Str) :
    (parseResponse r p ct = .error (failedParseMsg noPredictionMsg) ↔
      pyTruthy (extractPredictionContent r) = false) ∧
    (parseResponse r p ct = .error (failedParseMsg noChartJsonMsg) ↔
      (pyTruthy (extractPredictionContent r) = true ∧
       predChartJson (extractPredictionContent r) = none ∧
       predAnalysis (extractPredictionContent r) = none)) ∧
    (∀ m, parseResponse r p ct = .error m →
      m = failedParseMsg noPredictionMsg ∨ m = failedParseMsg noChartJsonMsg) := by
  have hmsgne : failedParseMsg noPredictionMsg ≠ failedParseMsg noChartJsonMsg := by
    decide
  cases hT : pyTruthy (extractPredictionContent r) with
  | false =>
    have hbody : parseResponseBody r p ct = .error (.generic noPredictionMsg) := by
      simp [parseResponseBody, hT]
    have hfb : createFallbackResponse (extractPredictionContent r) p ct
        reasonChartFail = none := by
      simp [createFallbackResponse, hT]
    have hp : parseResponse r p ct = .error (failedParseMsg noPredictionMsg) := by
      simp [parseResponse, hbody, hfb, pyExcMsg]
    refine ⟨by simp [hp], ?_, ?_⟩
    · rw [hp]
      constructor
      · intro h
        exact absurd (Except.error.inj h) hmsgne
      · rintro ⟨h1, -, -⟩
        exact Bool.noConfusion h1
    · intro m hm
      rw [hp] at hm
      exact Or.inl (Except.error.inj hm).symm
  | true =>
    cases hcj : predChartJson (extractPredictionContent r) with
    | none =>
      have hbody : parseResponseBody r p ct = .error (.generic noChartJsonMsg) := by
        simp [parseResponseBody, hT, hcj]
      cases han : predAnalysis (extractPredictionContent r) with
      | none =>
        have hfb : createFallbackResponse (extractPredictionContent r) p ct
            reasonChartFail = none := by
          simp [createFallbackResponse, hT, han]
        have hp : parseResponse r p ct = .error (failedParseMsg noChartJsonMsg) := by
          simp [parseResponse, hbody, hfb, pyExcMsg]
        refine ⟨?_, by simp [hp, hT, hcj, han], ?_⟩
        · rw [hp]
          constructor
          · intro h
            exact absurd (Except.error.inj h).symm hmsgne
          · intro h1
            exact Bool.noConfusion h1
        · intro m hm
          rw [hp] at hm
          exact Or.inr (Except.error.inj hm).symm
      | some a =>
        cases hfb2 : createFallbackResponse (extractPredictionContent r) p ct
            reasonChartFail with
        | none =>
          exfalso
          simp [createFallbackResponse, hT, han] at hfb2
        | some fb =>
          have hpp : parseResponse r p ct = .ok fb := by
            simp [parseResponse, hbody, hfb2]
          exact ⟨by simp [hpp, hT], by simp [hpp, han], by simp [hpp]⟩
    | some cd =>
      have hkeys := predChartJson_keys _ cd hcj
      have hov : ∃ out, validateChartData cd p ct = .ok out := by
        have hok := validateChartData_ok_of_keys cd p ct hkeys
        cases hv : validateChartData cd p ct with
        | ok out => exact ⟨out, rfl⟩
        | error e =>
          rw [hv] at hok
          exact absurd hok (by simp [Except.isOk, Except.toBool])
      obtain ⟨out, hv⟩ := hov
      have hp : ∃ j, parseResponse r p ct = .ok j := by
        cases han : predAnalysis (extractPredictionContent r) with
        | some a =>
          have hbody2 : parseResponseBody r p ct =
              .ok (Json.obj (setKey out "prediction_analysis" (Json.str a))) := by
            simp [parseResponseBody, hT, hcj, hv, han]
          have hpp : parseResponse r p ct =
              .ok (Json.obj (setKey out "prediction_analysis" (Json.str a))) := by
            simp [parseResponse, hbody2]
          exact ⟨_, hpp⟩
        | none =>
          have hbody2 : parseResponseBody r p ct = .ok (Json.obj out) := by
            simp [parseResponseBody, hT, hcj, hv, han]
          have hpp : parseResponse r p ct = .ok (Json.obj out) := by
            simp [parseResponse, hbody2]
          exact ⟨_, hpp⟩
      obtain ⟨j, hp⟩ := hp
      exact ⟨by simp [hp, hT], by simp [hp, hcj], by simp [hp]⟩

/-- Witness for C2 (amended): short junk in, chart-parsing error out. -/
theorem parse_failure_conditions_witness :
    parseResponse (lit "qqqqqqqq") (lit "") none =
      .error (failedParseMsg noChartJsonMsg) :=
  (parse_failure_conditions (lit "qqqqqqqq") (lit "") none).2.1.mpr
    ⟨by rfl, by rfl, by rfl⟩

/-- C2 (counterexample): the chart-parsing error actually raised carries no
preview of the raw response — for a ten-character junk payload the error
message is the fixed string, which does not contain any part of the
payload, refuting the claim's "truncated preview of at most 200 characters
of the raw response". -/
theorem parse_failure_no_preview_cex :
    parseResponse (lit "qqqqqqqqqq") (lit "") none =
      .error (failedParseMsg noChartJsonMsg) ∧
    pyIn (lit "qqqq") (failedParseMsg noChartJsonMsg) = false :=
  ⟨rfl, by decide⟩

/-- C3: whenever no valid chart object is found but the analysis extractor
yields text, the pipeline returns the fallback specification: title
`AI Analysis Available`, description naming the failure reason, chart type
from the inferer, the single placeholder label/value pair, the fixed
default config, the extracted prose as `prediction_analysis`,
`parsing_error` true, and `error_reason` the short tag `Chart parsing
failed` (one of the claim's two allowed tags). -/
theorem fallback_specification (r p : Str) (ct : Option Str) (a : Str)
    (hcj : predChartJson (extractPredictionContent r) = none)
    (han : predAnalysis (extractPredictionContent r) = some a) :
    parseResponse r p ct = .ok (Json.obj
      [("title", .str (lit "AI Analysis Available")),
       ("description", .str (reasonChartFail ++ lit " but analysis was extracted")),
       ("chart_type", .str (detectChartType p ct)),
       ("data", placeholderData),
       ("chart_config", defaultChartConfig),
       ("prediction_analysis", .str a),
       ("parsing_error", .bool true),
       ("error_reason", .str reasonChartFail)]) := by
  have hT : pyTruthy (extractPredictionContent r) = true := by
    cases hpv : extractPredictionContent r
    case str s =>
      rw [hpv] at han
      have hs : s ≠ [] := by
        intro hnil
        subst hnil
        simp only [predAnalysis] at han
        rw [extractAnalysisText_nil] at han
        exact Option.noConfusion han
      simp [pyTruthy, List.isEmpty_iff, hs]
    all_goals (rw [hpv] at han; exact absurd han (by simp [predAnalysis]))
  have hbody : parseResponseBody r p ct = .error (.generic noChartJsonMsg) := by
    simp [parseResponseBody, hT, hcj]
  have hfb : createFallbackResponse (extractPredictionContent r) p ct
      reasonChartFail = some (Json.obj
      [("title", .str (lit "AI Analysis Available")),
       ("description", .str (reasonChartFail ++ lit " but analysis was extracted")),
       ("chart_type", .str (detectChartType p ct)),
       ("data", placeholderData),
       ("chart_config", defaultChartConfig),
       ("prediction_analysis", .str a),
       ("parsing_error", .bool true),
       ("error_reason", .str reasonChartFail)]) := by
    simp [createFallbackResponse, hT, han]
  simp [parseResponse, hbody, hfb]

/-- Witness for C3 at a concrete prose-only payload. -/
theorem fallback_specification_witness :
    parseResponse (lit "This is a long analysis without any chart data")
      (lit "make a chart") none = .ok (Json.obj
      [("title", .str (lit "AI Analysis Available")),
       ("description", .str (lit "Chart parsing failed but analysis was extracted")),
       ("chart_type", .str (lit "bar")),
       ("data", placeholderData),
       ("chart_config", defaultChartConfig),
       ("prediction_analysis", .str (lit "This is a long analysis without any chart data")),
       ("parsing_error", .bool true),
       ("error_reason", .str (lit "Chart parsing failed"))]) :=
  fallback_specification (lit "This is a long analysis without any chart data")
    (lit "make a chart") none
    (lit "This is a long analysis without any chart data") (by rfl) (by rfl)

/-- C9: the `JSON parsing failed` branch is dead code — the `try` body of
`_parse_response` never raises `json.JSONDecodeError` (every decode failure
is swallowed inside the scanner's sub-routines), so whenever the body
raises, the pipeline proceeds exactly as the `Chart parsing failed` handler
prescribes, and any fallback specification it returns carries
`error_reason` equal to `Chart parsing failed`. -/
theorem fallback_reason_always_chart (r p : Str) (ct : Option Str) :
    (∀ m, parseResponseBody r p ct ≠ .error (PyExc.jsonDecode m)) ∧
    (∀ e, parseResponseBody r p ct = .error e →
      parseResponse r p ct =
        (match createFallbackResponse (extractPredictionContent r) p ct
            reasonChartFail with
         | some fb => Except.ok fb
         | none => Except.error (failedParseMsg (pyExcMsg e)))) ∧
    (∀ fb, createFallbackResponse (extractPredictionContent r) p ct
        reasonChartFail = some fb →
      ∃ fields, fb = Json.obj fields ∧
        lookupKey fields "error_reason" = some (.str reasonChartFail)) := by
  refine ⟨parseResponseBody_no_jsonDecode r p ct, ?_, ?_⟩
  · intro e he
    cases e with
    | jsonDecode m => exact absurd he (parseResponseBody_no_jsonDecode r p ct m)
    | valueError m => simp [parseResponse, he]
    | generic m => simp [parseResponse, he]
  · intro fb hfb
    simp only [createFallbackResponse] at hfb
    split at hfb
    · exact absurd hfb (by simp)
    · split at hfb
      · exact absurd hfb (by simp)
      · obtain rfl := Option.some.inj hfb
        exact ⟨_, rfl, rfl⟩

/-- Witness for C9 at a concrete junk payload whose body raises. -/
theorem fallback_reason_always_chart_witness :
    parseResponse (lit "zzzzzzz") (lit "") none =
      (match createFallbackResponse (extractPredictionContent (lit "zzzzzzz"))
          (lit "") none reasonChartFail with
       | some fb => Except.ok fb
       | none => Except.error (failedParseMsg
           (pyExcMsg (PyExc.generic noChartJsonMsg)))) :=
  (fallback_reason_always_chart (lit "zzzzzzz") (lit "") none).2.1
    (PyExc.generic noChartJsonMsg) (by rfl)
